import Mathlib

/-!
Verification of the Marzban dashboard's node health and performance
aggregation logic against its specification.

The definitions below are shallow embeddings of the TypeScript source in
`app/dashboard/src` (components `NodePerformanceOverview`,
`NodePerformanceCard`, the resilient-node-groups modal and form, the
load-balancer host form) and of the SQL migration
`add_performance_tracking.sql`.  TypeScript `number` is modelled as `ℚ`
(counts as `ℕ`), `T | null` as `Option T`, and JS array methods
(`filter`, `map`, `reduce`) as their `List` counterparts.
-/

namespace Marzban

/-- One row of `NodeMetrics` from `types/nodeMetrics.ts`: per-node metrics
as delivered by `/api/resilient-node-groups/metrics/performance`.
`avg_response_time` and `success_rate` are nullable (`number | null`);
`success_rate` is on the 0–100 percent scale used by the dashboard. -/
structure NodeMetrics where
  node_id : ℕ
  node_name : String
  status : String
  avg_response_time : Option ℚ
  success_rate : Option ℚ
  active_connections : ℕ
  total_connections : ℕ
  last_check : Option String
  recent_checks : Option ℕ
  performance_trend : Option String
  deriving Repr, DecidableEq

/-- `n.status === 'connected'` — the lifecycle test used by every filter in
`NodePerformanceOverview.tsx` and `ResilientNodeGroupsModal.tsx`. -/
def isConnectedNode (n : NodeMetrics) : Bool :=
  n.status == "connected"

/-- `nodes.filter(n => n.status === 'connected')`
(`NodePerformanceOverview.tsx` line 44 and line 74). -/
def connectedNodes (nodes : List NodeMetrics) : List NodeMetrics :=
  nodes.filter isConnectedNode

/-- The per-member health test of `getHealthPercentage`
(`NodePerformanceOverview.tsx` lines 46–48) and of the modal's
`getHealthStatus` (`ResilientNodeGroupsModal.tsx` lines 122–124):
`n.success_rate === null || n.success_rate >= 80`. -/
def isHealthyByRate (n : NodeMetrics) : Bool :=
  match n.success_rate with
  | none => true
  | some r => decide (80 ≤ r)

/-- `connectedNodes.filter(n => n.success_rate === null || n.success_rate >= 80)`
(`NodePerformanceOverview.tsx` lines 46–48). -/
def healthyNodes (nodes : List NodeMetrics) : List NodeMetrics :=
  (connectedNodes nodes).filter isHealthyByRate

/-- `getHealthPercentage` from `NodePerformanceOverview.tsx` lines 42–50:
returns 0 on an empty list and on a list with no connected node, otherwise
the percentage of connected nodes that pass the health test. -/
def getHealthPercentage (nodes : List NodeMetrics) : ℚ :=
  if nodes.length = 0 then 0
  else if (connectedNodes nodes).length = 0 then 0
  else ((healthyNodes nodes).length : ℚ) / ((connectedNodes nodes).length : ℚ) * 100

/-- The group-card computation of `avgResponseTime` from
`NodePerformanceOverview.tsx` lines 77–79:
`connectedNodes.length > 0 ?
   connectedNodes.reduce((sum, n) => sum + (n.avg_response_time || 0), 0)
     / connectedNodes.length : null`.
A member's null `avg_response_time` is coalesced to 0 by `|| 0` and the
division is by the number of all connected members. -/
def avgResponseTime (nodes : List NodeMetrics) : Option ℚ :=
  let connected := connectedNodes nodes
  if 0 < connected.length then
    some ((connected.foldl (fun sum n => sum + n.avg_response_time.getD 0) 0)
      / (connected.length : ℚ))
  else none

/-- The averaging rule as the specification words it (§4.4): mean of
`avg_response_time` over connected members that have a non-null value,
null if none.  Stated only to be compared with `avgResponseTime` above. -/
def avgResponseTimeSpec (nodes : List NodeMetrics) : Option ℚ :=
  let vals := (connectedNodes nodes).filterMap (fun n => n.avg_response_time)
  if 0 < vals.length then some (vals.sum / (vals.length : ℚ))
  else none

/-- `getStrategyColor` from `NodePerformanceOverview.tsx` lines 32–40:
a switch over the strategy-hint string with default case `'gray'`. -/
def getStrategyColor (strategy : String) : String :=
  if strategy == "url-test" then "blue"
  else if strategy == "fallback" then "orange"
  else if strategy == "load-balance" then "green"
  else if strategy == "client-default" then "purple"
  else "gray"

/-- The badge value produced by the health-status helpers: a color and a
text label (the tooltip strings are omitted as pure presentation). -/
structure HealthBadge where
  color : String
  text : String
  deriving Repr, DecidableEq

/-- `getHealthStatus` from `NodePerformanceCard.tsx` lines 59–65, applied
fleet-wide to `(healthy_nodes, connected_nodes)` of the overview: guards
the zero denominator with the `"No Nodes"` badge before dividing. -/
def cardGetHealthStatus (healthyCount totalCount : ℕ) : HealthBadge :=
  if totalCount = 0 then ⟨"gray", "No Nodes"⟩
  else
    let healthPercentage : ℚ := ((healthyCount : ℚ) / (totalCount : ℚ)) * 100
    if 80 ≤ healthPercentage then ⟨"green", "Healthy"⟩
    else if 60 ≤ healthPercentage then ⟨"yellow", "Warning"⟩
    else ⟨"red", "Critical"⟩

/-- The discrete health tiers of §3 / §4.3 of the specification. -/
inductive HealthTier where
  | healthy
  | warning
  | critical
  | offline
  | no_data
  deriving Repr, DecidableEq

/-- Modelled from the spec: `HealthClassifier.classify` (§4.3) — the
backend classifier itself is not part of the dashboard sources under
`src/`, only its outputs are consumed there.  Per §4.1/§4.3 the
`success_rate` of an aggregate is null exactly when `sample_count = 0`,
so the classifier is a function of the optional success rate (on the
0–1 scale of §3): `no_data` on an empty window, `offline` at rate 0,
then `healthy` at ≥ 0.80, `warning` at ≥ 0.60, `critical` below. -/
def classify (success_rate : Option ℚ) : HealthTier :=
  match success_rate with
  | none => HealthTier.no_data
  | some r =>
    if r = 0 then HealthTier.offline
    else if 4/5 ≤ r then HealthTier.healthy
    else if 3/5 ≤ r then HealthTier.warning
    else HealthTier.critical

/-- `MetricSample` (§3), matching the columns of the
`node_performance_metrics` table created by `add_performance_tracking.sql`
(`node_id`, `created_at` as the timestamp, `response_time`, `success`,
`error_message`). -/
structure MetricSample where
  node_id : ℕ
  timestamp : ℕ
  response_time : ℚ
  success : Bool
  error_message : Option String
  deriving Repr, DecidableEq

/-- Whether the store already holds a sample with the same
`(node_id, timestamp)` key — the key of the SQL constraint
`UNIQUE(created_at, node_id)` in `add_performance_tracking.sql`. -/
def hasDuplicateKey (store : List MetricSample) (s : MetricSample) : Bool :=
  store.any (fun t => t.node_id == s.node_id && t.timestamp == s.timestamp)

/-- Modelled from the spec: `RollingWindowStore.record` (§4.1) — the
backend store is not part of the dashboard sources under `src/`; its
uniqueness behaviour is fixed by the `UNIQUE(created_at, node_id)`
constraint of `add_performance_tracking.sql`.  Appends the sample unless
a sample with the same `(node_id, timestamp)` key is already stored, in
which case the insert is rejected and the store is unchanged
(`DuplicateSampleError`, logged and dropped per §7). -/
def record (store : List MetricSample) (s : MetricSample) : List MetricSample :=
  if hasDuplicateKey store s then store else store ++ [s]

/-- How many stored samples carry the key `(nid, ts)`. -/
def samplesWithKey (store : List MetricSample) (nid ts : ℕ) : ℕ :=
  store.countP (fun t => t.node_id == nid && t.timestamp == ts)

/-- Modelled from the spec: `StrategyEngine` candidate set (§4.5) — the
backend engine is not part of the dashboard sources under `src/`.
`round_robin`/`random` pick among connected, non-`offline` members; when
that set is empty they fall back to the full member list (fail-open, a
degraded-selection event). -/
def selectionPool (members : List ℕ) (connected : ℕ → Bool)
    (tier : ℕ → HealthTier) : List ℕ :=
  let eligible := members.filter
    (fun n => connected n && decide (tier n ≠ HealthTier.offline))
  if eligible.isEmpty then members else eligible

/-- Modelled from the spec: `round_robin` selection (§4.5): cycles through
the selection pool in stable order, indexed by a per-group counter. -/
def selectRoundRobin (members : List ℕ) (connected : ℕ → Bool)
    (tier : ℕ → HealthTier) (counter : ℕ) : Option ℕ :=
  let pool := selectionPool members connected tier
  pool.get? (counter % pool.length)

/-- Modelled from the spec: `random` selection (§4.5): a uniform choice
among the selection pool, with injectable (seeded) randomness. -/
def selectRandom (members : List ℕ) (connected : ℕ → Bool)
    (tier : ℕ → HealthTier) (seed : ℕ) : Option ℕ :=
  let pool := selectionPool members connected tier
  pool.get? (seed % pool.length)

/-- The `NodePerformanceOverview` record of `types/nodeMetrics.ts`: the
shape returned by `GetOverview` / `/api/resilient-node-groups/metrics/overview`.
The six count fields are `number`; the two averages are `number | null`. -/
structure NodePerformanceOverview where
  total_groups : ℕ
  total_nodes : ℕ
  connected_nodes : ℕ
  nodes_in_groups : ℕ
  healthy_nodes : ℕ
  total_active_connections : ℕ
  avg_response_time : Option ℚ
  avg_success_rate : Option ℚ
  deriving Repr, DecidableEq

/-- The eight fields of an overview, as a tuple. -/
def overviewToTuple (o : NodePerformanceOverview) :
    ℕ × ℕ × ℕ × ℕ × ℕ × ℕ × Option ℚ × Option ℚ :=
  (o.total_groups, o.total_nodes, o.connected_nodes, o.nodes_in_groups,
   o.healthy_nodes, o.total_active_connections, o.avg_response_time,
   o.avg_success_rate)

/-- Rebuilding an overview from the eight-field tuple. -/
def overviewOfTuple (t : ℕ × ℕ × ℕ × ℕ × ℕ × ℕ × Option ℚ × Option ℚ) :
    NodePerformanceOverview :=
  ⟨t.1, t.2.1, t.2.2.1, t.2.2.2.1, t.2.2.2.2.1, t.2.2.2.2.2.1,
   t.2.2.2.2.2.2.1, t.2.2.2.2.2.2.2⟩

/-- The slice of `NodeResponse` (`types/loadBalancer.ts`) that
`mapNodeNamesToIds` consults: integer id and name. -/
structure NodeEntry where
  id : ℕ
  name : String
  deriving Repr, DecidableEq

/-- The lookup of `idMap.get(name)` in `LoadBalancerHostForm.tsx`, where
`idMap = new Map(allNodes.map(node => [node.name, node.id]))`: a JS `Map`
built from an entry list keeps the last entry per key, so the lookup
yields the id of the last node bearing the name, if any. -/
def idMapGet (allNodes : List NodeEntry) (name : String) : Option ℕ :=
  ((allNodes.filter (fun n => n.name == name)).getLast?).map (fun n => n.id)

/-- `mapNodeNamesToIds` from `LoadBalancerHostForm.tsx` lines 138–142:
`if (!allNodes) return [];` then
`names.map(name => idMap.get(name)).filter(id => id !== undefined)`. -/
def mapNodeNamesToIds (names : List String) (allNodes : Option (List NodeEntry)) :
    List ℕ :=
  match allNodes with
  | none => []
  | some nodes => (names.map (idMapGet nodes)).filterMap id

/-- The state of `ResilientNodeGroupForm.tsx` that `validateForm` reads:
the group name, the selected node ids, and the strategy-hint string
(`''` stands for the `Not Set` option). -/
structure RNGFormState where
  name : String
  selectedNodeIds : List ℕ
  clientStrategyHint : String
  deriving Repr, DecidableEq

/-- The error keys accumulated by `validateForm`
(`ResilientNodeGroupForm.tsx` lines 73–90): `name` when the trimmed name
is empty (`!name.trim()`), `node_ids` when no node is selected,
`client_strategy_hint` when the hint string is empty
(`!clientStrategyHint`). -/
def formErrors (s : RNGFormState) : List String :=
  (if s.name.trim = "" then ["name"] else [])
    ++ (if s.selectedNodeIds = [] then ["node_ids"] else [])
    ++ (if s.clientStrategyHint = "" then ["client_strategy_hint"] else [])

/-- `validateForm` returns `Object.keys(newErrors).length === 0`. -/
def validateForm (s : RNGFormState) : Bool :=
  formErrors s = []

/-- The mutation payload built by `handleSubmit`
(`ResilientNodeGroupForm.tsx` lines 116–132): whether it is an update,
plus the trimmed name, node ids and hint sent to the backend. -/
structure GroupMutation where
  isUpdate : Bool
  name : String
  node_ids : List ℕ
  client_strategy_hint : String
  deriving Repr, DecidableEq

/-- `handleSubmit` from `ResilientNodeGroupForm.tsx` lines 92–133:
`if (!validateForm()) return;` — no mutation fires unless validation
passes; otherwise the update or create mutation is invoked with the
trimmed name, the selected ids and the hint. -/
def handleSubmit (s : RNGFormState) (isEditing : Bool) : Option GroupMutation :=
  if validateForm s then
    some ⟨isEditing, s.name.trim, s.selectedNodeIds, s.clientStrategyHint⟩
  else none

/-- A two-member group used to compare the two averaging rules: both
members connected, the first without a recorded response time, the second
averaging 100 ms. -/
def mixedGroup : List NodeMetrics :=
  [⟨1, "node-a", "connected", none, some 90, 0, 0, none, none, none⟩,
   ⟨2, "node-b", "connected", some 100, some 90, 0, 0, none, none, none⟩]

/-! ## Theorems -/

/-- The running sum of the `reduce` in `avgResponseTime` equals the
starting value plus the sum of the coalesced response times. -/
theorem foldl_add_getD (l : List NodeMetrics) (a : ℚ) :
    l.foldl (fun sum n => sum + n.avg_response_time.getD 0) a
      = a + (l.map (fun n => n.avg_response_time.getD 0)).sum := by
  induction l generalizing a with
  | nil => simp
  | cons x xs ih => simp [ih, add_assoc]

/-- Claim C1: in every group performance list, a member node is counted as
healthy if and only if its lifecycle status is `connected` and its
`success_rate` is either null or at least the healthy threshold (80 on the
dashboard's percent scale); non-connected members are never counted
healthy, and a connected member with null `success_rate` always is. -/
theorem c1_healthy_member_iff (nodes : List NodeMetrics) (n : NodeMetrics) :
    n ∈ healthyNodes nodes ↔
      n ∈ nodes ∧ n.status = "connected" ∧
        (n.success_rate = none ∨ ∃ r, n.success_rate = some r ∧ 80 ≤ r) := by
  rcases h : n.success_rate with _ | r <;>
      simp [healthyNodes, connectedNodes, List.mem_filter, isConnectedNode,
        isHealthyByRate, h, and_assoc] <;>
    tauto

/-- Claim C2: the spec's classifier sends a success rate of exactly 0.80 to
`healthy` and 0.7999 to `warning`; in general (within the warning band's
lower bound) the healthy boundary is a greater-or-equal comparison, so
boundary values land in the healthier tier. -/
theorem c2_healthy_boundary (r : ℚ) :
    classify (some (4/5)) = HealthTier.healthy ∧
    classify (some (7999/10000)) = HealthTier.warning ∧
    (classify (some r) = HealthTier.healthy ↔ 4/5 ≤ r) ∧
    (3/5 ≤ r → r < 4/5 → classify (some r) = HealthTier.warning) := by
  refine ⟨by norm_num [classify], by norm_num [classify], ?_, ?_⟩
  · rcases eq_or_ne r 0 with h0 | h0
    · subst h0
      have hz : ¬(4/5 : ℚ) ≤ 0 := by norm_num
      simp [classify, hz]
    · rcases le_or_lt (4/5 : ℚ) r with h1 | h1
      · simp [classify, h0, h1]
      · have h1n : ¬(4/5 : ℚ) ≤ r := not_le.mpr h1
        by_cases h2 : (3/5 : ℚ) ≤ r <;> simp [classify, h0, h1n, h2]
  · intro hlo hhi
    have h0 : r ≠ 0 := by intro e; rw [e] at hlo; norm_num at hlo
    have h1n : ¬(4/5 : ℚ) ≤ r := not_le.mpr hhi
    simp [classify, h0, h1n, hlo]

/-- Witness for C2 at the concrete rate 0.7: both hypotheses of the last
conjunct hold and the classifier yields `warning`. -/
theorem c2_healthy_boundary_witness :
    classify (some (7/10)) = HealthTier.warning :=
  (c2_healthy_boundary (7/10)).2.2.2 (by norm_num) (by norm_num)

/-- Claim C3 is false on the code: on `mixedGroup` the code computes the
average over all connected members with null coalesced to 0, giving 50,
while the mean over the members that have a non-null value is 100 — so a
connected member with a null `avg_response_time` does influence the
code's mean. -/
theorem c3_avg_response_counterexample :
    avgResponseTime mixedGroup = some 50 ∧
    avgResponseTimeSpec mixedGroup = some 100 ∧
    avgResponseTime mixedGroup ≠ avgResponseTimeSpec mixedGroup := by
  have h1 : avgResponseTime mixedGroup = some 50 := by
    norm_num [avgResponseTime, mixedGroup, connectedNodes, isConnectedNode]
  have h2 : avgResponseTimeSpec mixedGroup = some 100 := by
    norm_num [avgResponseTimeSpec, mixedGroup, connectedNodes, isConnectedNode,
      List.filterMap_cons, List.filterMap_nil]
  refine ⟨h1, h2, ?_⟩
  rw [h1, h2]
  simp

/-- Claim C3 amended: the group's average response time is null exactly
when the group has no connected member; otherwise it is the sum of
`avg_response_time` over all connected members — null coalesced to 0 —
divided by the number of connected members. -/
theorem c3_avg_response_amended (nodes : List NodeMetrics) :
    (avgResponseTime nodes = none ↔ connectedNodes nodes = []) ∧
    (∀ v, avgResponseTime nodes = some v →
      v * ((connectedNodes nodes).length : ℚ) =
        ((connectedNodes nodes).map (fun n => n.avg_response_time.getD 0)).sum) := by
  by_cases h : 0 < (connectedNodes nodes).length
  · have hne : connectedNodes nodes ≠ [] := List.length_pos.mp h
    have hlen : ((connectedNodes nodes).length : ℚ) ≠ 0 :=
      Nat.cast_ne_zero.mpr (Nat.pos_iff_ne_zero.mp h)
    constructor
    · simp [avgResponseTime, h, hne]
    · intro v hv
      simp only [avgResponseTime] at hv
      rw [if_pos h] at hv
      have hv2 := Option.some.inj hv
      rw [← hv2, foldl_add_getD, zero_add, div_mul_cancel₀ _ hlen]
  · have hnil : connectedNodes nodes = [] :=
      List.length_eq_zero.mp (Nat.le_zero.mp (not_lt.mp h))
    constructor
    · simp [avgResponseTime, hnil]
    · intro v hv
      simp [avgResponseTime, hnil] at hv

/-- Witness for the amended C3 on `mixedGroup`: the code's average is 50,
and 50 times the two connected members equals the coalesced sum 100. -/
theorem c3_avg_response_amended_witness :
    (50 : ℚ) * ((connectedNodes mixedGroup).length : ℚ) =
      ((connectedNodes mixedGroup).map (fun n => n.avg_response_time.getD 0)).sum :=
  (c3_avg_response_amended mixedGroup).2 50
    (by norm_num [avgResponseTime, mixedGroup, connectedNodes, isConnectedNode])

/-- Claim C4: a group with an empty member list or with no connected
member yields health percentage 0, a null average response time and zero
connected members, and the fleet card's health badge on zero counts is the
`No Nodes` badge — all without dividing by zero. -/
theorem c4_degenerate_groups_safe (nodes : List NodeMetrics)
    (h : ∀ n ∈ nodes, ¬ n.status = "connected") :
    getHealthPercentage nodes = 0 ∧
    avgResponseTime nodes = none ∧
    connectedNodes nodes = [] ∧
    getHealthPercentage [] = 0 ∧
    avgResponseTime [] = none ∧
    cardGetHealthStatus 0 0 = ⟨"gray", "No Nodes"⟩ := by
  have hc : connectedNodes nodes = [] := by
    rw [connectedNodes, List.filter_eq_nil_iff]
    intro a ha
    simpa [isConnectedNode] using h a ha
  refine ⟨?_, ?_, hc, by decide, by decide, by decide⟩
  · simp [getHealthPercentage, hc]
  · simp [avgResponseTime, hc]

/-- Witness for C4: a one-member group whose node is in the `error`
lifecycle state has no connected member; all degenerate outputs hold. -/
theorem c4_degenerate_groups_safe_witness :
    getHealthPercentage [⟨1, "n1", "error", none, none, 0, 0, none, none, none⟩] = 0 ∧
    avgResponseTime [⟨1, "n1", "error", none, none, 0, 0, none, none, none⟩] = none ∧
    connectedNodes [⟨1, "n1", "error", none, none, 0, 0, none, none, none⟩] = [] ∧
    getHealthPercentage [] = 0 ∧
    avgResponseTime [] = none ∧
    cardGetHealthStatus 0 0 = ⟨"gray", "No Nodes"⟩ :=
  c4_degenerate_groups_safe
    [⟨1, "n1", "error", none, none, 0, 0, none, none, none⟩] (by decide)

/-- Claim C7: `getStrategyColor` treats every string that is not one of the
four recognized hints exactly like the unset (empty) hint. -/
theorem c7_unknown_hint_like_unset (s : String)
    (h1 : s ≠ "url-test") (h2 : s ≠ "fallback")
    (h3 : s ≠ "load-balance") (h4 : s ≠ "client-default") :
    getStrategyColor s = getStrategyColor "" := by
  have hrhs : getStrategyColor "" = "gray" := rfl
  rw [hrhs]
  simp [getStrategyColor, h1, h2, h3, h4]

/-- Witness for C7: the unrecognized hint string `direct` maps to the same
color as the unset hint. -/
theorem c7_unknown_hint_like_unset_witness :
    getStrategyColor "direct" = getStrategyColor "" :=
  c7_unknown_hint_like_unset "direct" (by decide) (by decide) (by decide)
    (by decide)

/-- Claim C8: the overview record is exactly its eight fields — it is in
bijection with the tuple of six counts and the two nullable averages. -/
theorem c8_overview_shape :
    (∀ o : NodePerformanceOverview, overviewOfTuple (overviewToTuple o) = o) ∧
    (∀ t : ℕ × ℕ × ℕ × ℕ × ℕ × ℕ × Option ℚ × Option ℚ,
      overviewToTuple (overviewOfTuple t) = t) :=
  ⟨fun _ => rfl, fun _ => rfl⟩

/-- Recording a sample never breaks the per-`(node_id, timestamp)` bound:
if the store holds at most one sample with a given key, so does the store
after `record`. -/
theorem record_preserves_key_bound (store : List MetricSample) (s : MetricSample)
    (nid ts : ℕ) (h : samplesWithKey store nid ts ≤ 1) :
    samplesWithKey (record store s) nid ts ≤ 1 := by
  rw [record]
  by_cases hd : hasDuplicateKey store s = true
  · rw [if_pos hd]; exact h
  · rw [if_neg hd]
    rw [samplesWithKey, List.countP_append]
    by_cases hk : (s.node_id == nid && s.timestamp == ts) = true
    · have hzero : samplesWithKey store nid ts = 0 := by
        by_contra hnz
        have hpos : 0 < samplesWithKey store nid ts := Nat.pos_of_ne_zero hnz
        rw [samplesWithKey, List.countP_pos_iff] at hpos
        obtain ⟨t, htmem, htp⟩ := hpos
        apply hd
        rw [hasDuplicateKey, List.any_eq_true]
        refine ⟨t, htmem, ?_⟩
        simp only [Bool.and_eq_true, beq_iff_eq] at htp hk ⊢
        exact ⟨by rw [htp.1, hk.1], by rw [htp.2, hk.2]⟩
      rw [samplesWithKey] at hzero
      rw [hzero]
      simp [List.countP_cons, hk]
    · have hzs : List.countP (fun t => t.node_id == nid && t.timestamp == ts)
          [s] = 0 := by
        simp [List.countP_cons, hk]
      rw [hzs]
      simpa [samplesWithKey] using h

/-- The key bound is preserved along any fold of `record` operations. -/
theorem foldl_record_key_bound (ops : List MetricSample)
    (store : List MetricSample) (nid ts : ℕ)
    (h : samplesWithKey store nid ts ≤ 1) :
    samplesWithKey (ops.foldl record store) nid ts ≤ 1 := by
  induction ops generalizing store with
  | nil => simpa using h
  | cons x xs ih => exact ih _ (record_preserves_key_bound store x nid ts h)

/-- Claim C5: a duplicate `(node_id, timestamp)` insert is rejected — the
store is returned unchanged — and after any sequence of `record`
operations from the empty store at most one sample per key is stored. -/
theorem c5_sample_key_unique :
    (∀ store s, hasDuplicateKey store s = true → record store s = store) ∧
    (∀ ops : List MetricSample, ∀ nid ts : ℕ,
      samplesWithKey (ops.foldl record []) nid ts ≤ 1) := by
  constructor
  · intro store s hd
    rw [record, if_pos hd]
  · intro ops nid ts
    exact foldl_record_key_bound ops [] nid ts (by simp [samplesWithKey])

/-- Witness for C5: re-recording a sample keyed `(1, 5)` into a store that
already holds a sample keyed `(1, 5)` leaves the store unchanged. -/
theorem c5_sample_key_unique_witness :
    record [⟨1, 5, 10, true, none⟩] ⟨1, 5, 12, false, none⟩
      = [⟨1, 5, 10, true, none⟩] :=
  c5_sample_key_unique.1 [⟨1, 5, 10, true, none⟩] ⟨1, 5, 12, false, none⟩
    (by decide)

/-- For a non-empty member list the selection pool is non-empty and its
elements are members: either some member is connected and non-offline, or
the fail-open fallback returns the full member list. -/
theorem selectionPool_spec (members : List ℕ) (connected : ℕ → Bool)
    (tier : ℕ → HealthTier) (h : members ≠ []) :
    selectionPool members connected tier ≠ [] ∧
    ∀ x ∈ selectionPool members connected tier, x ∈ members := by
  simp only [selectionPool]
  by_cases he : (members.filter
      fun n => connected n && decide (tier n ≠ HealthTier.offline)).isEmpty = true
  · rw [if_pos he]
    exact ⟨h, fun x hx => hx⟩
  · rw [if_neg he]
    refine ⟨?_, fun x hx => List.mem_of_mem_filter hx⟩
    intro e
    apply he
    rw [e]
    rfl

/-- Claim C6: for every non-empty member list, both `round_robin` and
`random` selection return some member id — never none — whatever the
tiers, in particular when every member is offline (fail-open). -/
theorem c6_fail_open_selection (members : List ℕ) (connected : ℕ → Bool)
    (tier : ℕ → HealthTier) (counter seed : ℕ) (h : members ≠ []) :
    (∃ id, selectRoundRobin members connected tier counter = some id ∧
      id ∈ members) ∧
    (∃ id, selectRandom members connected tier seed = some id ∧
      id ∈ members) := by
  obtain ⟨hne, hsub⟩ := selectionPool_spec members connected tier h
  have hlen : 0 < (selectionPool members connected tier).length :=
    List.length_pos.mpr hne
  constructor
  · have hlt : counter % (selectionPool members connected tier).length
        < (selectionPool members connected tier).length := Nat.mod_lt _ hlen
    refine ⟨(selectionPool members connected tier).get ⟨_, hlt⟩, ?_, ?_⟩
    · simp only [selectRoundRobin]
      exact List.get?_eq_get hlt
    · exact hsub _ (List.get_mem _ _ _)
  · have hlt : seed % (selectionPool members connected tier).length
        < (selectionPool members connected tier).length := Nat.mod_lt _ hlen
    refine ⟨(selectionPool members connected tier).get ⟨_, hlt⟩, ?_, ?_⟩
    · simp only [selectRandom]
      exact List.get?_eq_get hlt
    · exact hsub _ (List.get_mem _ _ _)

/-- Witness for C6: a three-member group whose members are all classified
offline still yields a member from both strategies. -/
theorem c6_fail_open_selection_witness :
    (∃ id, selectRoundRobin [1, 2, 3] (fun _ => true)
        (fun _ => HealthTier.offline) 0 = some id ∧ id ∈ [1, 2, 3]) ∧
    (∃ id, selectRandom [1, 2, 3] (fun _ => true)
        (fun _ => HealthTier.offline) 0 = some id ∧ id ∈ [1, 2, 3]) :=
  c6_fail_open_selection [1, 2, 3] (fun _ => true)
    (fun _ => HealthTier.offline) 0 0 (by decide)

/-- Claim C9: `mapNodeNamesToIds` returns the empty list on an undefined
node list, never returns more ids than input names, and every returned id
belongs to a node of the list whose name occurs among the input names. -/
theorem c9_mapNodeNamesToIds_sound (names : List String)
    (allNodes : Option (List NodeEntry)) :
    mapNodeNamesToIds names none = [] ∧
    (mapNodeNamesToIds names allNodes).length ≤ names.length ∧
    ∀ i ∈ mapNodeNamesToIds names allNodes,
      ∃ nodes n, allNodes = some nodes ∧ n ∈ nodes ∧ n.id = i ∧
        n.name ∈ names := by
  refine ⟨rfl, ?_, ?_⟩
  · cases allNodes with
    | none => simp [mapNodeNamesToIds]
    | some nodes =>
      calc (mapNodeNamesToIds names (some nodes)).length
          ≤ (names.map (idMapGet nodes)).length :=
            List.length_filterMap_le _ _
        _ = names.length := List.length_map _ _
  · intro i hi
    cases allNodes with
    | none => simp [mapNodeNamesToIds] at hi
    | some nodes =>
      simp only [mapNodeNamesToIds, List.mem_filterMap, id] at hi
      obtain ⟨o, homem, hid⟩ := hi
      subst hid
      rw [List.mem_map] at homem
      obtain ⟨name, hname_mem, hmap⟩ := homem
      rw [idMapGet, Option.map_eq_some'] at hmap
      obtain ⟨n, hlast, hnid⟩ := hmap
      have hnmem : n ∈ nodes.filter (fun m => m.name == name) := by
        obtain ⟨hne, heq⟩ :=
          List.mem_getLast?_eq_getLast (Option.mem_def.mpr hlast)
        rw [heq]
        exact List.getLast_mem hne
      rw [List.mem_filter] at hnmem
      refine ⟨nodes, n, rfl, hnmem.1, hnid, ?_⟩
      have : n.name = name := by simpa using hnmem.2
      rw [this]
      exact hname_mem

/-- Witness for C9: mapping the names `a, x` over the single node `(5, a)`
yields the id 5, which indeed belongs to a node whose name is among the
inputs. -/
theorem c9_mapNodeNamesToIds_sound_witness :
    ∃ nodes n, (some [({ id := 5, name := "a" } : NodeEntry)] : Option (List NodeEntry))
        = some nodes ∧
      n ∈ nodes ∧ n.id = 5 ∧ n.name ∈ ["a", "x"] :=
  (c9_mapNodeNamesToIds_sound ["a", "x"]
    (some [{ id := 5, name := "a" }])).2.2 5 (by decide)

/-- Claim C10: whenever the trimmed name is empty, no node is selected, or
the strategy hint is empty, `validateForm` returns false and
`handleSubmit` performs no mutation, whether creating or updating. -/
theorem c10_no_mutation_on_invalid (s : RNGFormState)
    (h : s.name.trim = "" ∨ s.selectedNodeIds = [] ∨
      s.clientStrategyHint = "") :
    validateForm s = false ∧ ∀ b, handleSubmit s b = none := by
  have hne : formErrors s ≠ [] := by
    rcases h with h | h | h <;> simp [formErrors, h]
  have hv : validateForm s = false := by
    simp [validateForm, hne]
  exact ⟨hv, fun b => by simp [handleSubmit, hv]⟩

/-- Witness for C10: a form with a name and a hint but no selected node
fails validation and fires no update mutation. -/
theorem c10_no_mutation_on_invalid_witness :
    validateForm ⟨"my group", [], "url-test"⟩ = false ∧
    handleSubmit ⟨"my group", [], "url-test"⟩ true = none :=
  ⟨(c10_no_mutation_on_invalid ⟨"my group", [], "url-test"⟩
      (Or.inr (Or.inl rfl))).1,
   (c10_no_mutation_on_invalid ⟨"my group", [], "url-test"⟩
      (Or.inr (Or.inl rfl))).2 true⟩

end Marzban
